import Mathlib

/-!
Verification of the `swfcarve` SWF carving plugin.

A shallow embedding of `swfcarve/swfcarve/swfcarve.py` (class `PeCarve`):
byte buffers are `List Nat` (each element a byte value), the stateful
`BytesIO` reads of the straight-line Python code are modelled as explicit
slices at the positions the stream would be at, Python exceptions are
modelled by the value the enclosing `try/except` handler produces, and the
external decompression libraries (`zlib.decompress`, `pylzma.decompress`)
are parameters of type `List Nat → Option (List Nat)` where `none` models
the library raising an exception.
-/

namespace Swfcarve

/-- The slice `content[pos : pos+n]`: the bytes `BytesIO.read(n)` returns when the
stream holds `c` and its position is `pos` (short reads at end of buffer
return fewer bytes; reads past the end return nothing). -/
def readAt (c : List Nat) (pos n : Nat) : List Nat :=
  (c.drop pos).take n

/-- The read `BytesIO.read(n)` for a possibly out-of-range Python `int` argument
`n` : a negative argument means "read to end of stream". -/
def readAtI (c : List Nat) (pos : Nat) (n : Int) : List Nat :=
  if n < 0 then c.drop pos else (c.drop pos).take n.toNat

/-- The decode `struct.unpack('<b', bytes([b]))[0]`: a byte as a signed 8-bit value. -/
def i8OfByte (b : Nat) : Int :=
  if b < 128 then (b : Int) else (b : Int) - 256

/-- The decode `struct.unpack('<i', bytes([b0,b1,b2,b3]))[0]`: four bytes as a signed
little-endian 32-bit value. -/
def i32OfBytesLE (b0 b1 b2 b3 : Nat) : Int :=
  if (b0 + 256 * b1 + 65536 * b2 + 16777216 * b3 : Int) < 2147483648 then
    (b0 + 256 * b1 + 65536 * b2 + 16777216 * b3 : Int)
  else
    (b0 + 256 * b1 + 65536 * b2 + 16777216 * b3 : Int) - 4294967296

/-- A UTF-8 continuation byte (`0x80..0xBF`). -/
def isCont (b : Nat) : Bool := 128 ≤ b && b ≤ 191

/-- Whether `bytes.decode()` succeeds on this byte string, i.e. whether it
is valid (strict, shortest-form, surrogate-free) UTF-8. -/
def validUtf8 : List Nat → Bool
  | [] => true
  | b :: rest =>
    if b ≤ 127 then validUtf8 rest
    else if 194 ≤ b && b ≤ 223 then
      match rest with
      | c1 :: r => isCont c1 && validUtf8 r
      | [] => false
    else if 224 ≤ b && b ≤ 239 then
      match rest with
      | c1 :: c2 :: r =>
        (if b = 224 then 160 ≤ c1 && c1 ≤ 191
         else if b = 237 then 128 ≤ c1 && c1 ≤ 159
         else isCont c1) && isCont c2 && validUtf8 r
      | _ => false
    else if 240 ≤ b && b ≤ 244 then
      match rest with
      | c1 :: c2 :: c3 :: r =>
        (if b = 240 then 144 ≤ c1 && c1 ≤ 191
         else if b = 244 then 128 ≤ c1 && c1 ≤ 143
         else isCont c1) && isCont c2 && isCont c3 && validUtf8 r
      | _ => false
    else false

/-- The magic of an uncompressed SWF, `b'FWS'`. -/
def fwsBytes : List Nat := [70, 87, 83]

/-- The magic of a zlib-compressed SWF, `b'CWS'`. -/
def cwsBytes : List Nat := [67, 87, 83]

/-- The magic of an LZMA-compressed SWF, `b'ZWS'`. -/
def zwsBytes : List Nat := [90, 87, 83]

/-- The bytes of the string `'SWF'` (note: not one of the SWF magics). -/
def swfLiteralBytes : List Nat := [83, 87, 70]

/-- The error strings `decompress` can append, as structured values:
`invalidSize` for the size-mismatch message and `unableAtOffset` for the
catch-all handler's message. -/
inductive SwfError where
  | invalidSize : SwfError
  | unableAtOffset : Nat → SwfError
deriving DecidableEq, Repr

/-- The literal Python text of each error. The size-mismatch string in the
source is a plain (non-f-string) literal, so its braces are verbatim text
and no lengths are interpolated. -/
def renderError : SwfError → String
  | .invalidSize =>
      "Invalid size of carved SWF content: \x7blen(content)\x7d != \x7bdecompressed_size\x7d"
  | .unableAtOffset n => "Unable to decompress SWF payload at offset " ++ toString n

/-- The first component of `decompress`'s return value: Python `None`,
the still-empty `extracted` list `[]`, or an `ExtractedPayload` carrying
the carved bytes and the metadata `{offset, swf_version}`. -/
inductive Extracted where
  | pyNone : Extracted
  | pyEmpty : Extracted
  | pyPayload (swf : List Nat) (offset : Nat) (swfVersion : Int) : Extracted
deriving DecidableEq, Repr

/-- Python truthiness of the `extracted` value: only an actual
`ExtractedPayload` passes `if ex:` in `scan`. -/
def Extracted.isObject : Extracted → Bool
  | .pyPayload _ _ _ => true
  | _ => false

/-- The read `content.read(3)` at a candidate offset: the 3 magic bytes. -/
def magicOf (content : List Nat) (offset : Nat) : List Nat :=
  readAt content offset 3

/-- The `FileLength` field: `struct.unpack("<i", content.read(4))[0]`,
the signed little-endian 32-bit integer at `offset + 4`. -/
def declaredLength (content : List Nat) (offset : Nat) : Int :=
  i32OfBytesLE (content.getD (offset + 4) 0) (content.getD (offset + 5) 0)
    (content.getD (offset + 6) 0) (content.getD (offset + 7) 0)

/-- The value `decompressed_size`: the declared length minus the 8 header bytes. -/
def declaredSize (content : List Nat) (offset : Nat) : Int :=
  declaredLength content offset - 8

/-- The value `composite_header = b'FWS' + content.read(5)` after
`content.seek(offset + 3)`. -/
def compositeHeader (content : List Nat) (offset : Nat) : List Nat :=
  fwsBytes ++ readAt content (offset + 3) 5

/-- The inner `try` block of `decompress`: the dispatch on the decoded
magic. `some` is a decompressed body; `none` is both the unrecognized
`else: return None, errors` branch and the bare `except: return None,
errors` that swallows a library exception. For `ZWS` the source seeks to
the absolute position 12 (not `offset + 8`) before reading. -/
def bodyResult (zlibD lzmaD : List Nat → Option (List Nat))
    (content : List Nat) (offset : Nat) : Option (List Nat) :=
  if magicOf content offset = zwsBytes then
    lzmaD (readAtI content 12 (declaredSize content offset))
  else if magicOf content offset = cwsBytes then
    zlibD (readAtI content (offset + 8) (declaredSize content offset))
  else if magicOf content offset = fwsBytes then
    some (readAtI content (offset + 8) (declaredSize content offset))
  else
    none

/-- The method `PeCarve.decompress(content, offset)`. The guard condition is when the
header reads succeed: `content.read(3).decode()` succeeds iff the magic
bytes are valid UTF-8, and the two `struct.unpack` calls succeed iff a
full 8-byte header lies at `offset`; any failure there is the outer
`except`, which appends the offset-bearing message and returns the empty
`extracted` list. On a body, a length different from `decompressed_size`
appends the (constant) size message and returns the empty list; otherwise
the result is `composite_header + decompressed_content` with metadata. -/
def decompress (zlibD lzmaD : List Nat → Option (List Nat))
    (content : List Nat) (offset : Nat) : Extracted × List SwfError :=
  if validUtf8 (magicOf content offset) && decide (offset + 8 ≤ content.length) then
    match bodyResult zlibD lzmaD content offset with
    | none => (.pyNone, [])
    | some dc =>
      if (dc.length : Int) = declaredSize content offset then
        (.pyPayload (compositeHeader content offset ++ dc) offset
          (i8OfByte (content.getD (offset + 3) 0)), [])
      else
        (.pyEmpty, [.invalidSize])
  else
    (.pyEmpty, [.unableAtOffset offset])

/-- One step of `re.finditer` over an alternation of literal byte strings:
at position `pos`, the first alternative (in pattern order) that matches
wins; the result is its length. -/
def matchAt (sigs : List (List Nat)) (data : List Nat) (pos : Nat) : Option Nat :=
  match sigs with
  | [] => none
  | s :: rest =>
    if (data.drop pos).take s.length = s then some s.length
    else matchAt rest data pos

/-- The scanning loop of `re.finditer`: try each position left to right,
emit `(start, end)` for a match and continue after it (advancing at least
one byte), else advance one byte. `fuel` bounds the number of positions
tried; `data.length + 1` is enough. -/
def carveAux (sigs : List (List Nat)) (data : List Nat) : Nat → Nat → List (Nat × Nat)
  | 0, _ => []
  | fuel + 1, pos =>
    if data.length < pos then []
    else
      match matchAt sigs data pos with
      | some len => (pos, pos + len) :: carveAux sigs data fuel (pos + Nat.max len 1)
      | none => carveAux sigs data fuel (pos + 1)

/-- The method `PeCarve._carve`: all `(match.start(), match.end())` pairs of
`re.finditer(self.swf_headers, content.read(), re.M | re.S)`. -/
def carve (sigs : List (List Nat)) (data : List Nat) : List (Nat × Nat) :=
  carveAux sigs data (data.length + 1) 0

/-- The loop body of `PeCarve.scan`: run `decompress` on every candidate
in order, keep the truthy extracted payloads, and collect every
candidate's errors. -/
def scanLoop (zlibD lzmaD : List Nat → Option (List Nat)) (payload : List Nat) :
    List (Nat × Nat) → List Extracted × List SwfError
  | [] => ([], [])
  | c :: rest =>
    let r := decompress zlibD lzmaD payload c.1
    let acc := scanLoop zlibD lzmaD payload rest
    ((if r.1.isObject then [r.1] else []) ++ acc.1, r.2 ++ acc.2)

/-- A `BytesIO` stream: the underlying buffer and the current position. -/
structure ByteStream where
  data : List Nat
  pos : Nat
deriving DecidableEq, Repr

/-- The call `stream.seek(p)`. -/
def ByteStream.seek (s : ByteStream) (p : Nat) : ByteStream :=
  { s with pos := p }

/-- The call `stream.read()`: everything from the current position, advancing the
position to the end of what was read. -/
def ByteStream.readAll (s : ByteStream) : List Nat × ByteStream :=
  (s.data.drop s.pos, { s with pos := Nat.max s.pos s.data.length })

/-- The scanning phase of `PeCarve.scan`: `content.seek(0)` followed by
`self._carve(content)`, which calls `content.read()`. -/
def scanOffsets (sigs : List (List Nat)) (s : ByteStream) :
    List (Nat × Nat) × ByteStream :=
  let s0 := s.seek 0
  let (buf, s1) := s0.readAll
  (carve sigs buf, s1)

/-- The string `'SWF|CWS|FWS'`: the fallback value of the `swf_headers` option. -/
def defaultSwfHeadersStr : String := "SWF|CWS|FWS"

/-- A string's bytes (all default signatures are ASCII, so `.encode()`
is just the code points). -/
def strToBytes (s : String) : List Nat := s.toList.map Char.toNat

/-- The default signature set: the regex alternatives of
`'SWF|CWS|FWS'.encode()` (the fallback string split on `'|'`), in pattern
order. -/
def defaultSwfHeaders : List (List Nat) :=
  [strToBytes "SWF", strToBytes "CWS", strToBytes "FWS"]

/-- The magics the dispatch in `decompress` recognizes, in the order of
its `if/elif` chain: `ZWS`, `CWS`, `FWS`. -/
def dispatchMagics : List (List Nat) := [zwsBytes, cwsBytes, fwsBytes]

/-- The header codec's version decode applied to a buffer's own header:
the signed byte at index 3. -/
def decodeVersion (buf : List Nat) : Int :=
  i8OfByte (buf.getD 3 0)

/-- The header codec's length decode applied to a buffer's own header:
the signed little-endian 32-bit value at indices 4..7. -/
def decodeLength (buf : List Nat) : Int :=
  i32OfBytesLE (buf.getD 4 0) (buf.getD 5 0) (buf.getD 6 0) (buf.getD 7 0)

/-- The buffer of the C4 divergence: an LZMA candidate at offset 0 whose
declared length is 12 (expected body size 4), with distinct bytes at
positions 8..11 and 12..15. -/
def c4buf : List Nat :=
  zwsBytes ++ [1] ++ [12, 0, 0, 0] ++ [100, 101, 102, 103] ++ [200, 201, 202, 203]

/-- A valid uncompressed SWF object: version 1, declared length 12,
4-byte body. -/
def c6buf : List Nat := fwsBytes ++ [1, 12, 0, 0, 0] ++ [10, 20, 30, 40]

/-- The object `decompress` reconstructs from `c6buf` at offset 0. -/
def c6swf : List Nat := [70, 87, 83, 1, 12, 0, 0, 0, 10, 20, 30, 40]

/-- A valid zlib-compressed SWF object: version 2, declared length 11,
3-byte compressed stream. -/
def c10buf : List Nat := cwsBytes ++ [2, 11, 0, 0, 0] ++ [1, 2, 3]

/-- Claim C1 (code bug): the claim says every default signature is the magic
of a dispatch-handled variant (`FWS`, `CWS`, `ZWS`). The code's fallback is
`'SWF|CWS|FWS'`: the alternative `'SWF'` is not a magic the dispatch
handles (a `SWF` candidate is silently dropped), and the LZMA magic `ZWS`
is absent from the default set, so an LZMA SWF is never even matched. -/
theorem c1_default_signature_set :
    defaultSwfHeaders = [swfLiteralBytes, cwsBytes, fwsBytes] ∧
    swfLiteralBytes ∈ defaultSwfHeaders ∧
    swfLiteralBytes ∉ dispatchMagics ∧
    zwsBytes ∉ defaultSwfHeaders ∧
    (decompress (fun _ => none) (fun _ => some [])
        ([83, 87, 70] ++ [1, 12, 0, 0, 0, 9, 9, 9, 9]) 0).1 = Extracted.pyNone ∧
    carve defaultSwfHeaders (zwsBytes ++ [1, 12, 0, 0, 0, 9, 9, 9, 9]) = [] := by
  decide

/-- Claim C2 (counterexample): at a `CWS` candidate whose compressed stream
makes the zlib library raise (modelled by the library returning `none`),
`decompress` returns no object and an *empty* error list — no failure
reason referencing the offset is reported, contrary to the claim. -/
theorem c2_counterexample :
    decompress (fun _ => none) (fun _ => none) (cwsBytes ++ [1, 50, 0, 0, 0, 1, 2, 3]) 0 =
      (Extracted.pyNone, ([] : List SwfError)) := by
  decide

/-- Claim C2 (amended): for every candidate offset where the underlying
decompression library raises, `decompress` returns no object and reports
*no* failure reason (the error list is empty); the fault never propagates
to abort scanning of subsequent candidates. -/
theorem c2_library_error_swallowed (zlibD lzmaD : List Nat → Option (List Nat))
    (content : List Nat) (offset : Nat)
    (hlen : offset + 8 ≤ content.length)
    (hfail :
      (magicOf content offset = cwsBytes ∧
        zlibD (readAtI content (offset + 8) (declaredSize content offset)) = none) ∨
      (magicOf content offset = zwsBytes ∧
        lzmaD (readAtI content 12 (declaredSize content offset)) = none)) :
    decompress zlibD lzmaD content offset = (Extracted.pyNone, []) := by
  rcases hfail with ⟨hm, hlib⟩ | ⟨hm, hlib⟩ <;>
  · have hb : bodyResult zlibD lzmaD content offset = none := by
      rw [bodyResult, hm]
      simp [zwsBytes, cwsBytes, fwsBytes, hlib]
    have hg : (validUtf8 (magicOf content offset) &&
        decide (offset + 8 ≤ content.length)) = true := by
      rw [hm]
      simp only [Bool.and_eq_true, decide_eq_true_eq]
      exact ⟨by decide, hlen⟩
    simp [decompress, hg, hb]

/-- Claim C2 witness: a concrete zlib candidate with a raising library. -/
theorem c2_witness :
    decompress (fun _ => none) (fun _ => some [1]) (cwsBytes ++ [7, 100, 0, 0, 0]) 0 =
      (Extracted.pyNone, []) :=
  c2_library_error_swallowed _ _ _ 0 (by decide) (Or.inl ⟨by decide, rfl⟩)

/-- Claim C3 (code bug): on a size mismatch no object is produced, but the
reported reason is the *constant* string
`'Invalid size of carved SWF content: {len(content)} != {decompressed_size}'`
(the `f` prefix is missing in the source), so it contains neither the
actual nor the expected length: two candidates with different length pairs
yield the identical error value. -/
theorem c3_size_mismatch_message :
    decompress (fun _ => none) (fun _ => none) (fwsBytes ++ [1, 100, 0, 0, 0]) 0 =
      (Extracted.pyEmpty, [SwfError.invalidSize]) ∧
    decompress (fun _ => none) (fun _ => none) (fwsBytes ++ [1, 50, 0, 0, 0, 7]) 0 =
      (Extracted.pyEmpty, [SwfError.invalidSize]) ∧
    renderError SwfError.invalidSize =
      "Invalid size of carved SWF content: \x7blen(content)\x7d != \x7bdecompressed_size\x7d" :=
  ⟨by decide, by decide, rfl⟩

/-- Claim C4 (code bug): for the LZMA variant the code seeks to the
*absolute* stream position 12 before reading, not to `offset + 8`. At a
candidate starting at offset 0 the bytes handed to the LZMA decompressor
(modelled as the identity) are those at positions 12..15, while the bytes
at `0 + 8 .. 0 + 11` — the ones the claim says are read — are skipped. -/
theorem c4_lzma_absolute_seek :
    declaredSize c4buf 0 = 4 ∧
    readAtI c4buf (0 + 8) (declaredSize c4buf 0) = [100, 101, 102, 103] ∧
    readAtI c4buf 12 (declaredSize c4buf 0) = [200, 201, 202, 203] ∧
    bodyResult (fun _ => none) (fun bs => some bs) c4buf 0 = some [200, 201, 202, 203] ∧
    decompress (fun _ => none) (fun bs => some bs) c4buf 0 =
      (Extracted.pyPayload (fwsBytes ++ [1, 12, 0, 0, 0] ++ [200, 201, 202, 203]) 0 1, []) := by
  decide

/-- Claim C5: a candidate with a full 8-byte header whose (decodable) 3-byte
magic is none of `ZWS`/`CWS`/`FWS` yields no object and no error at all:
the unrecognized variant is silently skipped as a non-object match. -/
theorem c5_unsupported_variant_silent (zlibD lzmaD : List Nat → Option (List Nat))
    (content : List Nat) (offset : Nat)
    (hlen : offset + 8 ≤ content.length)
    (hutf : validUtf8 (magicOf content offset) = true)
    (hz : magicOf content offset ≠ zwsBytes)
    (hc : magicOf content offset ≠ cwsBytes)
    (hf : magicOf content offset ≠ fwsBytes) :
    decompress zlibD lzmaD content offset = (Extracted.pyNone, []) := by
  have hb : bodyResult zlibD lzmaD content offset = none := by
    simp [bodyResult, hz, hc, hf]
  have hg : (validUtf8 (magicOf content offset) &&
      decide (offset + 8 ≤ content.length)) = true := by
    simp [hutf, hlen]
  simp [decompress, hg, hb]

/-- Claim C5 witness: a candidate whose magic is `'XYZ'`. -/
theorem c5_witness :
    decompress (fun _ => some [1]) (fun _ => some [2]) [88, 89, 90, 1, 12, 0, 0, 0] 0 =
      (Extracted.pyNone, []) :=
  c5_unsupported_variant_silent _ _ _ 0 (by decide) (by decide) (by decide) (by decide)
    (by decide)

theorem readAt_length (c : List Nat) (p n : Nat) :
    (readAt c p n).length = min n (c.length - p) := by
  simp [readAt]

theorem readAt_getD (c : List Nat) (p n k : Nat) (hk : k < n) (hp : p + k < c.length) :
    (readAt c p n).getD k 0 = c.getD (p + k) 0 := by
  have h1 : k < (readAt c p n).length := by rw [readAt_length]; omega
  rw [List.getD_eq_getElem _ _ h1, List.getD_eq_getElem _ _ hp]
  simp only [readAt]
  rw [List.getElem_take, List.getElem_drop]

theorem compositeHeader_getD (content : List Nat) (offset : Nat) (dc : List Nat) (k : Nat)
    (hk : k < 5) (hlen : offset + 8 ≤ content.length) :
    (compositeHeader content offset ++ dc).getD (3 + k) 0 = content.getD (offset + 3 + k) 0 := by
  have hhdr : (readAt content (offset + 3) 5).length = 5 := by
    rw [readAt_length]; omega
  rw [compositeHeader, List.append_assoc]
  rw [List.getD_append_right _ _ _ _ (by simp [fwsBytes] : fwsBytes.length ≤ 3 + k)]
  have h3 : 3 + k - fwsBytes.length = k := by simp [fwsBytes]
  rw [h3]
  rw [List.getD_append _ _ _ _ (by omega : k < (readAt content (offset + 3) 5).length)]
  exact readAt_getD content (offset + 3) 5 k hk (by omega)

theorem decompress_success_inv (zlibD lzmaD : List Nat → Option (List Nat))
    (content : List Nat) (offset : Nat) (swf : List Nat) (o : Nat) (ver : Int)
    (errs : List SwfError)
    (h : decompress zlibD lzmaD content offset = (.pyPayload swf o ver, errs)) :
    offset + 8 ≤ content.length ∧
    ∃ dc, bodyResult zlibD lzmaD content offset = some dc ∧
      (dc.length : Int) = declaredSize content offset ∧
      swf = compositeHeader content offset ++ dc ∧
      o = offset ∧ ver = i8OfByte (content.getD (offset + 3) 0) ∧ errs = [] := by
  unfold decompress at h
  split at h
  case isTrue hg =>
    have hlen : offset + 8 ≤ content.length := by
      have h2 := (Bool.and_eq_true _ _).mp hg
      exact of_decide_eq_true h2.2
    split at h
    next hbody => simp at h
    next dc hbody =>
      split at h
      next hsz =>
        simp only [Prod.mk.injEq, Extracted.pyPayload.injEq] at h
        obtain ⟨⟨e1, e2, e3⟩, e4⟩ := h
        exact ⟨hlen, dc, hbody, hsz, e1.symm, e2.symm, e3.symm, e4.symm⟩
      next hsz => simp at h
  case isFalse hg => simp at h

/-- Claim C6: every successful reconstruction is the synthesized 8-byte
header — the fixed uncompressed magic `FWS`, then the original version
byte and 4-byte length field verbatim — concatenated with the decompressed
body, and decoding the synthesized header yields the original version and
declared length. -/
theorem c6_synthesized_header (zlibD lzmaD : List Nat → Option (List Nat))
    (content : List Nat) (offset : Nat) (swf : List Nat) (o : Nat) (ver : Int)
    (errs : List SwfError)
    (h : decompress zlibD lzmaD content offset = (.pyPayload swf o ver, errs)) :
    ∃ dc, swf = fwsBytes ++ readAt content (offset + 3) 5 ++ dc ∧
      (dc.length : Int) = declaredLength content offset - 8 ∧
      errs = [] ∧
      decodeVersion swf = i8OfByte (content.getD (offset + 3) 0) ∧
      decodeVersion swf = ver ∧
      decodeLength swf = declaredLength content offset ∧
      readAt swf 0 3 = fwsBytes := by
  obtain ⟨hlen, dc, hbody, hsz, hswf, ho, hver, herrs⟩ :=
    decompress_success_inv zlibD lzmaD content offset swf o ver errs h
  have hv : decodeVersion swf = i8OfByte (content.getD (offset + 3) 0) := by
    have h3 := compositeHeader_getD content offset dc 0 (by omega) hlen
    simp only [Nat.add_zero] at h3
    rw [hswf, decodeVersion, h3]
  refine ⟨dc, ?_, ?_, herrs, hv, hv.trans hver.symm, ?_, ?_⟩
  · rw [hswf, compositeHeader, List.append_assoc]
  · simpa [declaredSize] using hsz
  · have h4 : (compositeHeader content offset ++ dc).getD 4 0 = content.getD (offset + 4) 0 :=
      compositeHeader_getD content offset dc 1 (by omega) hlen
    have h5 : (compositeHeader content offset ++ dc).getD 5 0 = content.getD (offset + 5) 0 :=
      compositeHeader_getD content offset dc 2 (by omega) hlen
    have h6 : (compositeHeader content offset ++ dc).getD 6 0 = content.getD (offset + 6) 0 :=
      compositeHeader_getD content offset dc 3 (by omega) hlen
    have h7 : (compositeHeader content offset ++ dc).getD 7 0 = content.getD (offset + 7) 0 :=
      compositeHeader_getD content offset dc 4 (by omega) hlen
    rw [hswf, decodeLength, h4, h5, h6, h7, declaredLength]
  · rw [hswf]
    simp [compositeHeader, readAt, fwsBytes]

/-- Claim C6 witness: the uncompressed object `c6buf` reconstructs to
`c6swf`, whose header decodes back to version 1 and length 12. -/
theorem c6_witness :
    ∃ dc, c6swf = fwsBytes ++ readAt c6buf (0 + 3) 5 ++ dc ∧
      (dc.length : Int) = declaredLength c6buf 0 - 8 ∧
      ([] : List SwfError) = [] ∧
      decodeVersion c6swf = i8OfByte (c6buf.getD (0 + 3) 0) ∧
      decodeVersion c6swf = 1 ∧
      decodeLength c6swf = declaredLength c6buf 0 ∧
      readAt c6swf 0 3 = fwsBytes :=
  c6_synthesized_header (fun _ => none) (fun _ => none) c6buf 0 c6swf 0 1 [] (by decide)

/-- Claim C7: (a) a candidate with fewer than 8 bytes from its offset yields
no object and a reported truncation failure naming the offset, not a
fault; (b) per-candidate processing is isolated — every error any
candidate produces is collected in the scan's output, so no candidate's
failure aborts the processing of the rest. -/
theorem c7_truncation_reported :
    (∀ (zlibD lzmaD : List Nat → Option (List Nat)) (content : List Nat) (offset : Nat),
      content.length < offset + 8 →
      decompress zlibD lzmaD content offset =
        (Extracted.pyEmpty, [SwfError.unableAtOffset offset])) ∧
    (∀ (zlibD lzmaD : List Nat → Option (List Nat)) (payload : List Nat)
      (cands : List (Nat × Nat)) (c : Nat × Nat), c ∈ cands →
      ∀ e ∈ (decompress zlibD lzmaD payload c.1).2,
        e ∈ (scanLoop zlibD lzmaD payload cands).2) := by
  constructor
  · intro zlibD lzmaD content offset hlt
    have hg : (validUtf8 (magicOf content offset) &&
        decide (offset + 8 ≤ content.length)) = false := by
      have hn : ¬ (offset + 8 ≤ content.length) := by omega
      simp [hn]
    simp [decompress, hg]
  · intro zlibD lzmaD payload cands
    induction cands with
    | nil => intro c hc; simp at hc
    | cons hd tl ih =>
      intro c hc e he
      simp only [scanLoop]
      rcases List.mem_cons.mp hc with hEq | hmem
      · subst hEq
        exact List.mem_append_left _ he
      · exact List.mem_append_right _ (ih c hmem e he)

/-- Claim C7 witness: a bare signature with no header bytes is reported as a
failure at offset 0, and that failure appears in the scan output. -/
theorem c7_witness :
    decompress (fun _ => none) (fun _ => none) [70, 87, 83] 0 =
      (Extracted.pyEmpty, [SwfError.unableAtOffset 0]) ∧
    SwfError.unableAtOffset 0 ∈
      (scanLoop (fun _ => none) (fun _ => none) [70, 87, 83] [(0, 3)]).2 :=
  ⟨c7_truncation_reported.1 _ _ _ 0 (by decide),
   c7_truncation_reported.2 _ _ _ [(0, 3)] (0, 3) (by decide) (SwfError.unableAtOffset 0)
     (by decide)⟩

/-- Claim C8: scanning is restartable and non-mutating: running the scan
phase (seek to 0, read all, find all signature matches) twice on the same
stream yields identical offset sequences, and the underlying buffer is
unchanged by either run. -/
theorem c8_scan_restartable :
    ∀ (sigs : List (List Nat)) (s : ByteStream),
      (scanOffsets sigs s).1 = (scanOffsets sigs (scanOffsets sigs s).2).1 ∧
      (scanOffsets sigs s).2.data = s.data ∧
      (scanOffsets sigs (scanOffsets sigs s).2).2.data = s.data := by
  intro sigs s
  exact ⟨rfl, rfl, rfl⟩

/-- Claim C9: a declared length that makes the expected decompressed size
`declared_length − 8` negative never yields an object: the candidate fails
validation (for the raw `FWS` variant it is reported as the size-mismatch
failure) and no arithmetic fault occurs — the negative-size read is the
Python read-to-end, whose result can never match a negative size. -/
theorem c9_negative_size_no_object (zlibD lzmaD : List Nat → Option (List Nat))
    (content : List Nat) (offset : Nat)
    (hneg : declaredSize content offset < 0) :
    (decompress zlibD lzmaD content offset).1.isObject = false ∧
    (magicOf content offset = fwsBytes → offset + 8 ≤ content.length →
      decompress zlibD lzmaD content offset = (Extracted.pyEmpty, [SwfError.invalidSize])) := by
  constructor
  · unfold decompress
    split
    · split
      · rfl
      next dc hdc =>
        split
        next hsz =>
          exfalso
          have h0 : (0 : Int) ≤ (dc.length : Int) := Int.natCast_nonneg _
          omega
        next => rfl
    · rfl
  · intro hm hlen
    have hb : bodyResult zlibD lzmaD content offset =
        some (readAtI content (offset + 8) (declaredSize content offset)) := by
      rw [bodyResult, hm]
      simp [zwsBytes, cwsBytes, fwsBytes]
    have hg : (validUtf8 (magicOf content offset) &&
        decide (offset + 8 ≤ content.length)) = true := by
      rw [hm]
      simp only [Bool.and_eq_true, decide_eq_true_eq]
      exact ⟨by decide, hlen⟩
    have hne : ¬ (((readAtI content (offset + 8) (declaredSize content offset)).length : Int) =
        declaredSize content offset) := by
      intro hEq
      have h0 : (0 : Int) ≤
          ((readAtI content (offset + 8) (declaredSize content offset)).length : Int) :=
        Int.natCast_nonneg _
      omega
    simp [decompress, hg, hb, hne]

/-- Claim C9 witness: declared length 0 gives expected size −8; the `FWS`
candidate is rejected with the size failure and no object. -/
theorem c9_witness :
    (decompress (fun _ => none) (fun _ => none) (fwsBytes ++ [1, 0, 0, 0, 0]) 0).1.isObject =
      false ∧
    decompress (fun _ => none) (fun _ => none) (fwsBytes ++ [1, 0, 0, 0, 0]) 0 =
      (Extracted.pyEmpty, [SwfError.invalidSize]) :=
  ⟨(c9_negative_size_no_object _ _ _ 0 (by decide)).1,
   (c9_negative_size_no_object _ _ _ 0 (by decide)).2 (by decide) (by decide)⟩

/-- Claim C10: every successfully reconstructed object is exactly
`declared_length` bytes long and starts with the uncompressed magic
`FWS`, for every buffer, offset, library behavior and variant. -/
theorem c10_output_invariant (zlibD lzmaD : List Nat → Option (List Nat))
    (content : List Nat) (offset : Nat) (swf : List Nat) (o : Nat) (ver : Int)
    (errs : List SwfError)
    (h : decompress zlibD lzmaD content offset = (.pyPayload swf o ver, errs)) :
    (swf.length : Int) = declaredLength content offset ∧
    readAt swf 0 3 = fwsBytes := by
  obtain ⟨hlen, dc, hbody, hsz, hswf, ho, hver, herrs⟩ :=
    decompress_success_inv zlibD lzmaD content offset swf o ver errs h
  constructor
  · have hhdr : (readAt content (offset + 3) 5).length = 5 := by
      rw [readAt_length]; omega
    have hL : (compositeHeader content offset ++ dc).length = 8 + dc.length := by
      simp [compositeHeader, fwsBytes, hhdr]
      omega
    rw [hswf, hL]
    simp only [declaredSize] at hsz
    push_cast
    omega
  · rw [hswf]
    simp [compositeHeader, readAt, fwsBytes]

/-- Claim C10 witness: the zlib object `c10buf` reconstructs to an 11-byte
object (its declared length) starting with `FWS`. -/
theorem c10_witness :
    ((([70, 87, 83, 2, 11, 0, 0, 0, 5, 6, 7] : List Nat)).length : Int) =
      declaredLength c10buf 0 ∧
    readAt ([70, 87, 83, 2, 11, 0, 0, 0, 5, 6, 7] : List Nat) 0 3 = fwsBytes :=
  c10_output_invariant (fun _ => some [5, 6, 7]) (fun _ => none) c10buf 0
    [70, 87, 83, 2, 11, 0, 0, 0, 5, 6, 7] 0 2 [] (by decide)

end Swfcarve
